import Mathlib

/-!
Verification of the Scrapling casino/faucet automation scripts.

The repository drives a browser against gambling/faucet sites. Its logic is
ordinary sequential control flow over page primitives (click, fill, query,
wait); here those primitives' outcomes are passed in explicitly (as `Bool`,
`Option` and `Except` values describing what the live page would have done),
and the control flow of each function under scrutiny is translated
line-by-line. Python floats are modelled as `ℚ` (only order comparisons and
exact decimal arithmetic occur on them), Python exceptions as `Except`,
Python `None` as `Option.none`.
-/

namespace Scrapling

/-! ## Retry/poll click helper (`casino.py`: `wait_for_clickable`, `safe_click`) -/

/-- Default constants from `casino.py` lines 23-26. -/
def CLICK_TIMEOUT_MS : Nat := 5000

/-- `MAX_CLICK_RETRIES` from `casino.py` line 24. -/
def MAX_CLICK_RETRIES : Nat := 3

/-- `MAX_KENO_ITERATIONS` from `casino.py` line 26 ("Maximum iterations in
gambling loop as safety net"). -/
def MAX_KENO_ITERATIONS : Nat := 1000

/-- One execution trace of `safe_click` (`casino.py` lines 600-657):
`waits` counts the calls to `wait_for_clickable` (clickability attempts),
`sleeps` lists the `page.wait_for_timeout(backoff_time)` sleeps in order (ms),
`result` is the returned boolean. -/
structure ClickTrace where
  waits : Nat
  sleeps : List Nat
  result : Bool
deriving DecidableEq, Repr

/-- Shallow embedding of the retry loop of `safe_click` (`casino.py` 626-657),
running from loop index `attempt` (0-based, as in `range(max_retries)`).
`clickable a` is the outcome of `wait_for_clickable` on attempt `a` (that
helper catches its own exceptions and returns a boolean, `casino.py` 576-597);
`clickOk a` is whether `page.click` succeeds on attempt `a` (an exception
there is caught by the loop's `except` branch). The backoff is the source's
`backoff_time = 1000 * (2**attempt)`. -/
def safe_click_from (force : Bool) (clickable clickOk : Nat → Bool)
    (max_retries attempt : Nat) : ClickTrace :=
  if h : attempt < max_retries then
    if !force && !clickable attempt then
      if h2 : attempt < max_retries - 1 then
        let t := safe_click_from force clickable clickOk max_retries (attempt + 1)
        { t with waits := t.waits + 1, sleeps := 1000 * 2 ^ attempt :: t.sleeps }
      else
        { waits := 1, sleeps := [], result := false }
    else if clickOk attempt then
      { waits := if force then 0 else 1, sleeps := [], result := true }
    else if h3 : attempt < max_retries - 1 then
      let t := safe_click_from force clickable clickOk max_retries (attempt + 1)
      { t with waits := t.waits + (if force then 0 else 1),
               sleeps := 1000 * 2 ^ attempt :: t.sleeps }
    else
      { waits := if force then 0 else 1, sleeps := [], result := false }
  else
    { waits := 0, sleeps := [], result := false }
termination_by max_retries - attempt
decreasing_by all_goals omega

/-- `safe_click` run from the start of its loop. -/
def safe_click (force : Bool) (clickable clickOk : Nat → Bool) (max_retries : Nat) :
    ClickTrace :=
  safe_click_from force clickable clickOk max_retries 0

/-- On a permanently unclickable element (no forcing, `wait_for_clickable`
always false), starting the loop at `attempt = a` with `max_retries = a + d + 1`
performs `d + 1` clickability attempts, sleeps `1000 * 2 ^ i` for
`i = a, ..., a + d - 1`, and returns false. -/
lemma safe_click_from_unclickable (clickOk : Nat → Bool) :
    ∀ (d a : Nat),
      safe_click_from false (fun _ => false) clickOk (a + d + 1) a =
        { waits := d + 1, sleeps := (List.range' a d).map (fun i => 1000 * 2 ^ i),
          result := false } := by
  intro d
  induction d with
  | zero =>
      intro a
      rw [safe_click_from]
      simp
  | succ d ih =>
      intro a
      rw [safe_click_from]
      have h1 : a < a + (d + 1) + 1 := by omega
      have h2 : a < a + (d + 1) + 1 - 1 := by omega
      rw [dif_pos h1]
      simp only [Bool.not_false, Bool.and_self, if_pos]
      rw [dif_pos h2]
      have hN : a + (d + 1) + 1 = (a + 1) + d + 1 := by omega
      rw [hN, ih (a + 1)]
      simp [List.range'_succ]

/-- C1: for every retry policy with `maxAttempts = N ≥ 1` and a permanently
unclickable element (never visible/enabled, no forced click), `safe_click`
performs exactly N clickability attempts, sleeps `1000 * 2 ^ (k - 1)` ms after
each non-final attempt `k = 1, ..., N - 1` (base 1000 ms, doubling) and never
after the final one, and returns the failure value `false` instead of raising. -/
theorem safe_click_permanently_unclickable (clickOk : Nat → Bool) (N : Nat)
    (h : 1 ≤ N) :
    (safe_click false (fun _ => false) clickOk N).waits = N ∧
    (safe_click false (fun _ => false) clickOk N).sleeps =
      (List.range (N - 1)).map (fun i => 1000 * 2 ^ i) ∧
    (safe_click false (fun _ => false) clickOk N).result = false := by
  have hN : 0 + (N - 1) + 1 = N := by omega
  have key := safe_click_from_unclickable clickOk (N - 1) 0
  rw [hN] at key
  unfold safe_click
  rw [key]
  refine ⟨?_, ?_, rfl⟩
  · show N - 1 + 1 = N
    omega
  · show (List.range' 0 (N - 1)).map (fun i => 1000 * 2 ^ i) = _
    rw [List.range_eq_range']

/-- Witness for C1 at `N = 3`: three attempts, sleeps `[1000, 2000]`, failure. -/
theorem safe_click_permanently_unclickable_witness :
    (1 ≤ 3) ∧
    (safe_click false (fun _ => false) (fun _ => true) 3).waits = 3 ∧
    (safe_click false (fun _ => false) (fun _ => true) 3).sleeps =
      (List.range 2).map (fun i => 1000 * 2 ^ i) ∧
    (safe_click false (fun _ => false) (fun _ => true) 3).result = false :=
  ⟨by norm_num, safe_click_permanently_unclickable (fun _ => true) 3 (by norm_num)⟩

/-! ## The keno auto-betting/balance-polling loop
(`scrapling_pick.py`: `bet_and_start_auto`, `play_keno`) -/

/-- The wager chosen by `bet_and_start_auto` (`scrapling_pick.py` 206-222):
`max(0.00000100, balance / 100.0)`. -/
def bet_and_start_auto_wager (balance : ℚ) : ℚ :=
  max (1 / 1000000) (balance / 100)

/-- What one pass of `play_keno`'s `while True` body does with the freshly read
balance (`scrapling_pick.py` 240-251). -/
inductive KenoStep where
  | rebet       : KenoStep
  | closePage   : KenoStep
  | keepPlaying : KenoStep
deriving DecidableEq, Repr

/-- The branch taken by the balance check in `play_keno`'s loop body
(`scrapling_pick.py` 243-249): the `if` rebets when the balance leaves the
[50x, 150x] band, the `elif` closes the page and breaks when it leaves the
[20x, 1000x] band. -/
def keno_loop_step (balance wager : ℚ) : KenoStep :=
  if balance < wager * 50 ∨ balance > wager * 150 then KenoStep.rebet
  else if balance < wager * 20 ∨ balance > wager * 1000 then KenoStep.closePage
  else KenoStep.keepPlaying

/-- The `while True` loop of `play_keno` (`scrapling_pick.py` 240-251), observed
for `fuel` iterations over an arbitrary sequence of balances read by
`get_balance` at each iteration; returns whether the loop ever took the
`page.close(); break` branch within that budget. The source loop itself has no
iteration counter. -/
def play_keno_loop (balances : Nat → ℚ) : Nat → ℚ → Nat → Bool
  | _, _, 0 => false
  | i, wager, fuel + 1 =>
    match keno_loop_step (balances i) wager with
    | KenoStep.rebet =>
        play_keno_loop balances (i + 1) (bet_and_start_auto_wager (balances i)) fuel
    | KenoStep.closePage => true
    | KenoStep.keepPlaying => play_keno_loop balances (i + 1) wager fuel

/-- For a positive wager the `elif` break branch is dead: its condition implies
the `if` condition tested first. -/
lemma keno_step_no_close (b w : ℚ) (hw : 0 < w) :
    keno_loop_step b w ≠ KenoStep.closePage := by
  unfold keno_loop_step
  by_cases h1 : b < w * 50 ∨ b > w * 150
  · simp [h1]
  · have h2 : ¬(b < w * 20 ∨ b > w * 1000) := by
      push_neg at h1 ⊢
      constructor
      · nlinarith [h1.1]
      · nlinarith [h1.2]
    simp [h1, h2]

/-- `bet_and_start_auto` always returns a positive wager. -/
lemma bet_and_start_auto_wager_pos (b : ℚ) : 0 < bet_and_start_auto_wager b :=
  lt_of_lt_of_le (by norm_num) (le_max_left _ _)

/-- The loop never takes the close/break branch, whatever the balances do. -/
lemma play_keno_loop_never_closes (balances : Nat → ℚ) :
    ∀ (fuel i : Nat) (w : ℚ), 0 < w → play_keno_loop balances i w fuel = false := by
  intro fuel
  induction fuel with
  | zero => intro i w _; rfl
  | succ fuel ih =>
      intro i w hw
      rw [play_keno_loop]
      have hnc := keno_step_no_close (balances i) w hw
      rcases h : keno_loop_step (balances i) w with _ | _ | _
      · exact ih (i + 1) _ (bet_and_start_auto_wager_pos (balances i))
      · exact absurd h hnc
      · exact ih (i + 1) w hw

/-- C2 (refuting the claim): the balance circuit breaker of `play_keno` is
unreachable. For every positive wager the close/break branch is never the one
taken (its `elif` guard implies the `if` guard tested before it), so for every
sequence of observed balances and every iteration budget the loop never exits
by closing the page; the cap `MAX_KENO_ITERATIONS` is never consulted by
`play_keno`. -/
theorem play_keno_circuit_breaker_unreachable (b w : ℚ) (hw : 0 < w)
    (balances : Nat → ℚ) (i fuel : Nat) :
    keno_loop_step b w ≠ KenoStep.closePage ∧
    play_keno_loop balances i w fuel = false :=
  ⟨keno_step_no_close b w hw, play_keno_loop_never_closes balances fuel i w hw⟩

/-- Witness for C2 at balance 10, wager 1 (balance below 20x the wager, where
the claim says the loop exits): the step is not `closePage`, and the loop of
constant balance 10 runs its whole budget without closing the page. -/
theorem play_keno_circuit_breaker_unreachable_witness :
    (0 : ℚ) < 1 ∧
    keno_loop_step 10 1 ≠ KenoStep.closePage ∧
    play_keno_loop (fun _ => 10) 0 1 5 = false :=
  ⟨by norm_num,
   (play_keno_circuit_breaker_unreachable 10 1 (by norm_num) (fun _ => 10) 0 5).1,
   (play_keno_circuit_breaker_unreachable 10 1 (by norm_num) (fun _ => 10) 0 5).2⟩

/-! ## Generic accept-or-close modal scanner
(`casino.py`: `make_generic_accept_or_close_modals`, lines 421-505) -/

/-- The accept-intent tokens, `casino.py` line 437. -/
def accept_tokens : List String :=
  ["accept", "claim", "get", "collect", "yes", "agree", "okay"]

/-- Splitting a character list on whitespace runs, dropping empty pieces
(Python `str.split()` with no argument); `acc` holds the reversed current word. -/
def words_aux : List Char → List Char → List String
  | [], acc => if acc.isEmpty then [] else [String.mk acc.reverse]
  | c :: cs, acc =>
      if c.isWhitespace then
        if acc.isEmpty then words_aux cs [] else String.mk acc.reverse :: words_aux cs []
      else words_aux cs (c :: acc)

/-- `button_text.lower().split()` (`casino.py` line 462): lower-case the text,
split on whitespace, drop empty pieces. -/
def button_words (text : String) : List String :=
  words_aux (text.data.map Char.toLower) []

/-- `accept_tokens & button_words` is truthy iff some word of the button text
is an accept token (`casino.py` line 465). -/
def text_has_accept_token (text : String) : Bool :=
  (button_words text).any (fun w => accept_tokens.contains w)

/-- Trace of the scanner's `while` loop: `iterations` counts executions of the
loop body past the `n > 10` guard, `clicked` lists the texts of the candidate
(claim) buttons that were clicked, `claimed` is the returned flag. -/
structure ScanTrace where
  iterations : Nat
  clicked : List String
  claimed : Bool
deriving DecidableEq, Repr

/-- The scanner loop of `accept_or_close_modals` (`casino.py` 452-488) from
loop state `n` (the source's counter, 0 at entry). `buttons i` is the text of
the first enabled button the page shows on the i-th loop entry, `none` when
`enabled_buttons.count()` is 0 (the loop condition fails). The body clicks the
candidate button only when its words meet `accept_tokens`; otherwise it tries
to close the modal instead (not recorded in `clicked`). -/
def accept_or_close_scan_from (buttons : Nat → Option String) (i n : Nat) :
    ScanTrace :=
  match buttons i with
  | none => { iterations := 0, clicked := [], claimed := false }
  | some text =>
    if h : n + 1 > 10 then
      { iterations := 0, clicked := [], claimed := false }
    else
      let hit := text_has_accept_token text
      let t := accept_or_close_scan_from buttons (i + 1) (n + 1)
      { iterations := t.iterations + 1,
        clicked := if hit then text :: t.clicked else t.clicked,
        claimed := hit || t.claimed }
termination_by 10 - n
decreasing_by omega

/-- The scanner started as in the source: `n = 0`, first page observation. -/
def accept_or_close_scan (buttons : Nat → Option String) : ScanTrace :=
  accept_or_close_scan_from buttons 0 0

/-- The scanner executes at most `10 - n` body iterations from counter `n`. -/
lemma accept_or_close_scan_from_iterations_le (buttons : Nat → Option String) :
    ∀ (k n i : Nat), 10 - n ≤ k →
      (accept_or_close_scan_from buttons i n).iterations ≤ 10 - n := by
  intro k
  induction k with
  | zero =>
      intro n i hk
      rw [accept_or_close_scan_from]
      cases buttons i with
      | none => simp
      | some text =>
          have h : n + 1 > 10 := by omega
          simp [h]
  | succ k ih =>
      intro n i hk
      rw [accept_or_close_scan_from]
      cases buttons i with
      | none => simp
      | some text =>
          by_cases h : n + 1 > 10
          · simp [h]
          · have hrec := ih (n + 1) (i + 1) (by omega)
            simp [h]
            omega

/-- Every candidate button the scanner clicks has an accept token. -/
lemma accept_or_close_scan_from_clicked_accept (buttons : Nat → Option String) :
    ∀ (k n i : Nat), 10 - n ≤ k →
      ∀ t ∈ (accept_or_close_scan_from buttons i n).clicked,
        text_has_accept_token t = true := by
  intro k
  induction k with
  | zero =>
      intro n i hk t ht
      rw [accept_or_close_scan_from] at ht
      cases hb : buttons i with
      | none => rw [hb] at ht; simp at ht
      | some text =>
          have h : n + 1 > 10 := by omega
          rw [hb] at ht
          simp [h] at ht
  | succ k ih =>
      intro n i hk t ht
      rw [accept_or_close_scan_from] at ht
      cases hb : buttons i with
      | none => rw [hb] at ht; simp at ht
      | some text =>
          rw [hb] at ht
          by_cases h : n + 1 > 10
          · simp [h] at ht
          · simp [h] at ht
            split at ht
            next hhit =>
              rcases List.mem_cons.mp ht with rfl | htl
              · exact hhit
              · exact ih (n + 1) (i + 1) (by omega) t htl
            next hhit =>
              exact ih (n + 1) (i + 1) (by omega) t ht

/-- C3: the generic accept-or-close modal scanner clicks a candidate (claim)
button only when the lower-cased whitespace-separated tokens of its visible
text intersect the accept-token set, and its loop executes at most 10
iterations even if enabled buttons keep reappearing forever. -/
theorem accept_or_close_scan_spec (buttons : Nat → Option String) :
    (accept_or_close_scan buttons).iterations ≤ 10 ∧
    (∀ t ∈ (accept_or_close_scan buttons).clicked, text_has_accept_token t = true) := by
  constructor
  · exact accept_or_close_scan_from_iterations_le buttons 10 0 0 (by omega)
  · exact accept_or_close_scan_from_clicked_accept buttons 10 0 0 (by omega)

/-- A concrete page for the C3 witness: one enabled button "Claim now", then
the modal is gone. The scanner clicks it once. -/
lemma accept_or_close_scan_demo :
    accept_or_close_scan (fun i => if i = 0 then some "Claim now" else none) =
      { iterations := 1, clicked := ["Claim now"], claimed := true } := by
  unfold accept_or_close_scan
  rw [accept_or_close_scan_from, accept_or_close_scan_from]
  norm_num
  decide

/-- Witness for C3: on the demo page the clicked button "Claim now" indeed
carries an accept token (via the theorem), and the iteration bound holds. -/
theorem accept_or_close_scan_spec_witness :
    (accept_or_close_scan (fun i => if i = 0 then some "Claim now" else none)).iterations ≤ 10 ∧
    text_has_accept_token "Claim now" = true := by
  refine ⟨(accept_or_close_scan_spec (fun i => if i = 0 then some "Claim now" else none)).1, ?_⟩
  exact (accept_or_close_scan_spec (fun i => if i = 0 then some "Claim now" else none)).2
    "Claim now" (by rw [accept_or_close_scan_demo]; simp)

/-! ## Account-state parsing (`scrapling_pick.py`: `parse_flipclock`,
`parse_account_state_page`, `parse_account_state_res`) -/

/-- Python `str.strip()` on a character list: drop leading and trailing
whitespace. -/
def strip_chars (cs : List Char) : List Char :=
  ((cs.dropWhile Char.isWhitespace).reverse.dropWhile Char.isWhitespace).reverse

/-- Python `s.strip()`. -/
def py_strip (s : String) : String :=
  String.mk (strip_chars s.data)

/-- Python `s.replace(",", "")`: drop every comma. -/
def remove_commas (s : String) : String :=
  String.mk (s.data.filter (fun c => c ≠ ','))

/-- The value of a string of decimal digit characters. -/
def digitsToNat (cs : List Char) : Nat :=
  cs.foldl (fun a c => 10 * a + (c.toNat - 48)) 0

/-- Python `float(s)`, restricted to the plain decimal strings this code feeds
it: optional surrounding whitespace, an optional sign, digits with at most one
decimal point and at least one digit; anything else raises ValueError (`none`
here). Exponents, inf/nan and underscore separators never occur in these
pages' texts and are rejected by the model. -/
def pyFloat? (s : String) : Option ℚ :=
  match strip_chars s.data with
  | '-' :: body => (pyFloatMag? body).map (fun v => -v)
  | '+' :: body => pyFloatMag? body
  | body => pyFloatMag? body
where
  /-- The unsigned part: `digits`, `digits.digits`, `digits.` or `.digits`. -/
  pyFloatMag? (body : List Char) : Option ℚ :=
    match body.dropWhile Char.isDigit with
    | [] =>
        if body.isEmpty then none
        else some ((digitsToNat body : ℚ))
    | '.' :: fp =>
        if fp.all Char.isDigit && !(body.takeWhile Char.isDigit).isEmpty || !fp.isEmpty then
          if fp.all Char.isDigit then
            some ((digitsToNat (body.takeWhile Char.isDigit) : ℚ)
              + (digitsToNat fp : ℚ) / (10 : ℚ) ^ fp.length)
          else none
        else none
    | _ => none

/-- Python `int(s)`: optional surrounding whitespace, an optional sign, then
at least one decimal digit. -/
def pyInt? (s : String) : Option Int :=
  match strip_chars s.data with
  | '-' :: body =>
      if !body.isEmpty && body.all Char.isDigit then some (-(digitsToNat body : Int)) else none
  | '+' :: body =>
      if !body.isEmpty && body.all Char.isDigit then some ((digitsToNat body : Int)) else none
  | body =>
      if !body.isEmpty && body.all Char.isDigit then some ((digitsToNat body : Int)) else none

/-- `t[0] if t else "0"` (`scrapling_pick.py` 391-394): the first character of
a stripped digit text, `"0"` when the text is empty. -/
def first_char_or_zero (s : String) : String :=
  match s.data with
  | [] => "0"
  | c :: _ => String.mk [c]

/-- `f"{minute_tens}{minute_ones}:{second_tens}{second_ones}"`. -/
def flip_mmss (m10 m1 s10 s1 : String) : String :=
  m10 ++ m1 ++ ":" ++ s10 ++ s1

/-- `parse_flipclock` (`scrapling_pick.py` 374-403), as a function of the
texts of the `li.flip-clock-active` digit elements in the live DOM.
`page.wait_for_selector(..., state="attached", timeout=3000)` raises a
TimeoutError when no element matches (modelled `.error`); otherwise
`query_selector_all` returns the elements and each digit text is that
element's `inner_text().strip()`. With fewer than four digits the function
logs and returns `None`. -/
def parse_flipclock (digits : List String) : Except String (Option String) :=
  if digits.isEmpty then Except.error "TimeoutError: waiting for selector"
  else if 4 ≤ digits.length then
    match (digits.take 4).map py_strip with
    | [d0, d1, d2, d3] =>
        Except.ok (some (flip_mmss (first_char_or_zero d0) (first_char_or_zero d1)
          (first_char_or_zero d2) (first_char_or_zero d3)))
    | _ => Except.ok none
  else Except.ok none

/-- The countdown section of `parse_account_state_res` (`scrapling_pick.py`
476-505). `div_present` is whether `div#faucet_countdown_clock` matched;
`digits` are the texts of `#faucet_countdown_clock li.flip-clock-active`.
`active_digits[j].text.strip()[0]` raises IndexError on an empty stripped
text, caught by `except (IndexError, AttributeError)`, leaving
`time_remaining = None`; zero or fewer than four digit elements also leave it
`None` ("faucet likely ready to claim"). -/
def res_countdown (div_present : Bool) (digits : List String) : Option String :=
  if div_present then
    if 4 ≤ digits.length then
      match (digits.take 4).map py_strip with
      | [d0, d1, d2, d3] =>
          if d0.data.isEmpty || d1.data.isEmpty || d2.data.isEmpty || d3.data.isEmpty then
            none
          else
            some (flip_mmss (first_char_or_zero d0) (first_char_or_zero d1)
              (first_char_or_zero d2) (first_char_or_zero d3))
      | _ => none
    else none
  else none

/-- The faucet `AccountState` dataclass (`scrapling_pick.py` 26-50). -/
structure AccountState where
  balance : ℚ
  wagered : ℚ
  target : ℚ
  remaining_claims : Int
  free_spins : Int
  time_remaining : Option String
deriving DecidableEq, Repr

/-- A snapshot of the faucet page as `parse_account_state_page`
(`scrapling_pick.py` 348-432) queries it: each `query_selector` result's
`text_content()`, `none` when the selector matches nothing, plus the texts of
the `#faucet_countdown_clock .clock li.flip-clock-active` digit elements. -/
structure FaucetPageDOM where
  balance_el : Option String
  wagered_el : Option String
  target_el : Option String
  remaining_claims_el : Option String
  free_spins_el : Option String
  flip_digits : List String
deriving DecidableEq, Repr

/-- `parse_account_state_page` (`scrapling_pick.py` 348-432). The guard
`flipclock_locator.count() >= 0` is always true, so `parse_flipclock` always
runs; any exception inside the `try` block (the wait timeout raised by
`parse_flipclock` on zero digits, or a `float()`/`int()` ValueError) is
caught and the function returns `None`; an absent element defaults its text
to "0.0" (floats) or "0" (ints). The balance is
`float(text.strip().replace(",", "").strip())`, the others parse the
stripped text directly. -/
def parse_account_state_page (dom : FaucetPageDOM) : Option AccountState :=
  match parse_flipclock dom.flip_digits with
  | Except.error _ => none
  | Except.ok time_remaining =>
    match pyFloat? (py_strip (remove_commas (py_strip (dom.balance_el.getD "0.0")))),
        pyFloat? (py_strip (dom.wagered_el.getD "0.0")),
        pyFloat? (py_strip (dom.target_el.getD "0.0")),
        pyInt? (py_strip (dom.remaining_claims_el.getD "0")),
        pyInt? (py_strip (dom.free_spins_el.getD "0")) with
    | some balance, some wagered, some target, some rc, some fs =>
        some { balance := balance, wagered := wagered, target := target,
               remaining_claims := rc, free_spins := fs,
               time_remaining := time_remaining }
    | _, _, _, _, _ => none

/-- A snapshot of the faucet page response as `parse_account_state_res`
(`scrapling_pick.py` 435-514) queries it via CSS selectors. -/
structure FaucetResDOM where
  balance_el : Option String
  wagered_el : Option String
  target_el : Option String
  remaining_claims_el : Option String
  free_spins_el : Option String
  countdown_div_present : Bool
  flip_digits : List String
deriving DecidableEq, Repr

/-- `parse_account_state_res` (`scrapling_pick.py` 435-514): absent selectors
default the text to "0.0"/"0"; a `float()`/`int()` failure is NOT caught here,
so the ValueError propagates (`.error`); the countdown section then fills
`time_remaining`. -/
def parse_account_state_res (dom : FaucetResDOM) : Except String AccountState :=
  match pyFloat? (py_strip (remove_commas (py_strip (dom.balance_el.getD "0.0")))),
      pyFloat? (py_strip (dom.wagered_el.getD "0.0")),
      pyFloat? (py_strip (dom.target_el.getD "0.0")),
      pyInt? (py_strip (dom.remaining_claims_el.getD "0")),
      pyInt? (py_strip (dom.free_spins_el.getD "0")) with
  | some balance, some wagered, some target, some rc, some fs =>
      Except.ok { balance := balance, wagered := wagered, target := target,
                  remaining_claims := rc, free_spins := fs,
                  time_remaining := res_countdown dom.countdown_div_present dom.flip_digits }
  | _, _, _, _, _ => Except.error "ValueError"

/-- C4: countdown digit texts ["0","5","3","2"] reconstruct the cooldown
string "05:32" in both the live-page and the Response-based parser; the
Response-based parser yields cooldown = none (claim available) when zero
digit elements match; but on the live-page path zero matching digit elements
make `parse_flipclock`'s wait raise, so `parse_account_state_page` returns no
state at all instead of a state with cooldown none - the branch the claim
describes is the one the vacuous guard `flipclock_locator.count() >= 0`
(clearly meant to be `> 0`) fails to provide. -/
theorem flipclock_parsing_spec :
    parse_flipclock ["0", "5", "3", "2"] = Except.ok (some "05:32") ∧
    res_countdown true ["0", "5", "3", "2"] = some "05:32" ∧
    res_countdown true [] = none ∧
    res_countdown false [] = none ∧
    (parse_flipclock []).isOk = false ∧
    parse_account_state_page { balance_el := some "1.0", wagered_el := some "0.0",
                               target_el := some "0.0", remaining_claims_el := some "0",
                               free_spins_el := some "0", flip_digits := [] } = none := by
  refine ⟨rfl, rfl, rfl, rfl, rfl, rfl⟩

/-- A demo page for C5: balance text "1,234.56", every other field element
absent, a live four-digit countdown. -/
def demo_page : FaucetPageDOM :=
  { balance_el := some "1,234.56", wagered_el := none, target_el := none,
    remaining_claims_el := none, free_spins_el := none,
    flip_digits := ["0", "5", "3", "2"] }

/-- A page whose balance text cannot parse, for C5's total-failure conjunct. -/
def demo_page_bad : FaucetPageDOM :=
  { balance_el := some "N/A", wagered_el := none, target_el := none,
    remaining_claims_el := none, free_spins_el := none,
    flip_digits := ["0", "5", "3", "2"] }

/-- The state the C5 demo page parses to. -/
def demo_state : AccountState :=
  { balance := 1234.56, wagered := 0, target := 0, remaining_claims := 0,
    free_spins := 0, time_remaining := some "05:32" }

/-- C5: account-state parsing is field-tolerant but distinguishes absence
from zero: balance text "1,234.56" parses to 1234.56; wagered/target/claims/
spins elements matching nothing default to 0.0/0 without raising; a total
parse failure (unparseable balance text) returns `none`, which is distinct
from a parsed state with zero balance; and every successful parse of a page
with absent wagered and target elements has those fields equal to 0. -/
theorem parse_account_state_field_tolerance :
    parse_account_state_page demo_page = some demo_state ∧
    demo_state.balance = 1234.56 ∧
    parse_account_state_page demo_page_bad = none ∧
    (none : Option AccountState) ≠
      some { balance := 0, wagered := 0, target := 0, remaining_claims := 0,
             free_spins := 0, time_remaining := none } ∧
    (∀ (dom : FaucetPageDOM) (st : AccountState),
      dom.wagered_el = none → dom.target_el = none →
      parse_account_state_page dom = some st → st.wagered = 0 ∧ st.target = 0) := by
  have hc1 : parse_account_state_page demo_page =
      some { balance := ((1234 : Nat) : ℚ) + ((56 : Nat) : ℚ) / (10 : ℚ) ^ 2,
             wagered := ((0 : Nat) : ℚ) + ((0 : Nat) : ℚ) / (10 : ℚ) ^ 1,
             target := ((0 : Nat) : ℚ) + ((0 : Nat) : ℚ) / (10 : ℚ) ^ 1,
             remaining_claims := ((0 : Nat) : Int), free_spins := ((0 : Nat) : Int),
             time_remaining := some "05:32" } := rfl
  refine ⟨?_, rfl, rfl, by simp, ?_⟩
  · rw [hc1]
    unfold demo_state
    norm_num
  intro dom st hw ht hparse
  unfold parse_account_state_page at hparse
  cases hfc : parse_flipclock dom.flip_digits with
  | error e =>
      rw [hfc] at hparse
      simp at hparse
  | ok tr =>
      rw [hfc, hw, ht] at hparse
      simp only [Option.getD_none] at hparse
      have h1 : pyFloat? (py_strip "0.0") = some 0 := by
        rw [show pyFloat? (py_strip "0.0") =
          some (((0 : Nat) : ℚ) + ((0 : Nat) : ℚ) / (10 : ℚ) ^ 1) from rfl]
        norm_num
      rw [h1] at hparse
      split at hparse
      · rename_i b w t rc fs hb hwq htq hrc hfs
        obtain rfl := Option.some_inj.mp hparse
        obtain rfl := Option.some_inj.mp hwq
        obtain rfl := Option.some_inj.mp htq
        exact ⟨rfl, rfl⟩
      · exact absurd hparse (by simp)

/-- Witness for C5's universally quantified conjunct, at the demo page. -/
theorem parse_account_state_field_tolerance_witness :
    demo_state.wagered = 0 ∧ demo_state.target = 0 :=
  parse_account_state_field_tolerance.2.2.2.2 demo_page demo_state
    rfl rfl parse_account_state_field_tolerance.1

/-! ## Modal-tab-button bonus claim (`casino.py`: `make_modal_tab_button`
lines 236-291; duplicated verbatim as `claim_daily_bonus` in `stake_us.py`
66-98) -/

/-- The page primitives the modal-tab-button flow touches, with their
outcomes: `.error e` is a PlaywrightError raised by that primitive (all the
playwright calls used here fail with PlaywrightError, the type the flow
catches). `claim_disabled` is `claim_btn.is_disabled()`; `close_count` is
`page.locator(close_btn_selector).count()`. -/
structure MTBPage where
  modal_click : Except String Unit
  tab_click : Except String Unit
  claim_disabled : Except String Bool
  claim_click : Except String Unit
  close_count : Nat
  close_click : Except String Unit

/-- What one run of the flow did: whether the claim button was clicked,
whether "Daily bonus already claimed." was logged, the PlaywrightError the
`except` branch caught (if any), and whether the `finally` block went on to
click the close button (it does exactly when `close_count > 0`; a failure of
that click is swallowed by the inner `except: pass`). -/
structure MTBTrace where
  claim_clicked : Bool
  already_claimed : Bool
  body_error : Option String
  close_click_attempted : Bool
deriving DecidableEq, Repr

/-- The `try` body of `claim_daily_bonus` (`casino.py` 271-281): click the
modal opener, click the tab, inspect the claim button's disabled state, click
it only when enabled; any PlaywrightError along the way is caught by the
`except` branch (logged, not re-raised). -/
def claim_daily_bonus_body (p : MTBPage) : MTBTrace :=
  match p.modal_click with
  | Except.error e =>
      { claim_clicked := false, already_claimed := false, body_error := some e,
        close_click_attempted := false }
  | Except.ok _ =>
    match p.tab_click with
    | Except.error e =>
        { claim_clicked := false, already_claimed := false, body_error := some e,
          close_click_attempted := false }
    | Except.ok _ =>
      match p.claim_disabled with
      | Except.error e =>
          { claim_clicked := false, already_claimed := false, body_error := some e,
            close_click_attempted := false }
      | Except.ok true =>
          { claim_clicked := false, already_claimed := true, body_error := none,
            close_click_attempted := false }
      | Except.ok false =>
        match p.claim_click with
        | Except.error e =>
            { claim_clicked := true, already_claimed := false, body_error := some e,
              close_click_attempted := false }
        | Except.ok _ =>
            { claim_clicked := true, already_claimed := false, body_error := none,
              close_click_attempted := false }

/-- `claim_daily_bonus` (`casino.py` 263-289): the `try`/`except` body, then
the `finally` block, which clicks the close selector when it matches and
swallows its own PlaywrightError; no path re-raises, so the result is always
`.ok`. -/
def claim_daily_bonus (p : MTBPage) : Except String MTBTrace :=
  Except.ok
    { claim_daily_bonus_body p with close_click_attempted := decide (0 < p.close_count) }

/-- C6: the modal-tab-button claim flow is idempotent and never throws: for
every page it returns normally (`.ok`), and its `finally` cleanup attempts the
close selector (clicking exactly when the close button is present, swallowing
errors) on every path; and whenever the claim button reports disabled
(already claimed) no claim click is performed, with "already claimed" logged
when the flow got that far. -/
theorem claim_daily_bonus_idempotent_never_throws :
    (∀ p : MTBPage, ∃ tr : MTBTrace, claim_daily_bonus p = Except.ok tr ∧
       tr.close_click_attempted = decide (0 < p.close_count)) ∧
    (∀ p : MTBPage, p.claim_disabled = Except.ok true →
       ∀ tr : MTBTrace, claim_daily_bonus p = Except.ok tr →
         tr.claim_clicked = false ∧
         (p.modal_click = Except.ok () → p.tab_click = Except.ok () →
           tr.already_claimed = true)) := by
  constructor
  · intro p
    exact ⟨_, rfl, rfl⟩
  · intro p hd tr htr
    obtain ⟨mc, tc, cd, cc, cnt, clc⟩ := p
    simp only at hd
    subst hd
    unfold claim_daily_bonus claim_daily_bonus_body at htr
    rw [Except.ok.injEq] at htr
    subst htr
    cases mc with
    | error e => exact ⟨rfl, fun h _ => absurd h (by simp)⟩
    | ok u =>
        cases tc with
        | error e => exact ⟨rfl, fun _ h => absurd h (by simp)⟩
        | ok v => exact ⟨rfl, fun _ _ => rfl⟩

/-- A demo page for C6: modal and tab clicks succeed, the claim button is
disabled (already claimed), the close button is present but its click times
out (the error is swallowed). -/
def demo_mtb_page : MTBPage :=
  { modal_click := Except.ok (), tab_click := Except.ok (),
    claim_disabled := Except.ok true, claim_click := Except.ok (),
    close_count := 1, close_click := Except.error "PlaywrightError: timeout" }

/-- The trace the demo page produces. -/
def demo_mtb_trace : MTBTrace :=
  { claim_clicked := false, already_claimed := true, body_error := none,
    close_click_attempted := true }

/-- Witness for C6 at the demo page. -/
theorem claim_daily_bonus_idempotent_never_throws_witness :
    demo_mtb_trace.claim_clicked = false ∧
    (demo_mtb_page.modal_click = Except.ok () → demo_mtb_page.tab_click = Except.ok () →
      demo_mtb_trace.already_claimed = true) :=
  claim_daily_bonus_idempotent_never_throws.2 demo_mtb_page rfl demo_mtb_trace rfl

/-! ## Credential resolution (`casino.py` 508-545, `scrapling_pick.py`
706-738 and `main` 855-951) -/

/-- `urlparse(url).netloc` for the absolute URLs this code handles: the
characters after the scheme's "://" up to the next '/', '?' or '#' (urlparse
keeps userinfo and port inside netloc; a URL whose scheme is not followed by
"//" has an empty netloc). -/
def netloc_chars (cs : List Char) : List Char :=
  match cs.dropWhile (fun c => c != ':') with
  | ':' :: '/' :: '/' :: rest =>
      rest.takeWhile (fun c => c != '/' && c != '?' && c != '#')
  | _ => []

/-- `url_to_env_prefix` (`casino.py` 508-521, identical in
`scrapling_pick.py` 706-719): `urlparse(url).netloc.split(".")[0].upper()`
(`split(".")[0]` is the characters before the first dot). -/
def url_to_env_pfx (url : String) : String :=
  String.mk (((netloc_chars url.data).takeWhile (fun c => c != '.')).map Char.toUpper)

/-- The spec's words, stated directly: "`SITEPREFIX` is derived from the
site's hostname (first DNS label, upper-cased)". -/
def spec_first_label_upper (host : String) : String :=
  String.mk ((host.data.takeWhile (fun c => c != '.')).map Char.toUpper)

/-- `get_credentials` (`casino.py` 524-545 on its `twofa=False` default path,
identical in `scrapling_pick.py` 722-738): `env` is `os.getenv`; Python's
`not username` is true both for an unset variable (None) and for an empty
string, and then a ValueError is raised. -/
def get_credentials (env : String → Option String) (url : String) :
    Except String (String × String) :=
  let p := url_to_env_pfx url
  let username := env (p ++ "_USERNAME")
  let password := env (p ++ "_PASSWORD")
  if username.getD "" = "" ∨ password.getD "" = "" then
    Except.error (p ++ "_USERNAME and " ++ p ++ "_PASSWORD must be set")
  else
    Except.ok (username.getD "", password.getD "")

/-- The stages of `main`'s per-pick processing (`scrapling_pick.py` 881-907). -/
inductive RunEvent where
  | resolveCredentials : RunEvent
  | openBrowserSession : RunEvent
  | runLoginAction : RunEvent
deriving DecidableEq, Repr

/-- The order of `main`'s per-pick processing (`scrapling_pick.py` 881-907):
`get_credentials(pick.url)` runs first and nothing catches its ValueError
there, so on a missing credential processing aborts before `StealthySession`
opens or any page action runs. -/
def process_pick_events (env : String → Option String) (url : String) :
    List RunEvent :=
  match get_credentials env url with
  | Except.error _ => [RunEvent.resolveCredentials]
  | Except.ok _ =>
      [RunEvent.resolveCredentials, RunEvent.openBrowserSession, RunEvent.runLoginAction]

/-- `takeWhile` swallows a prefix it satisfies and stops at the first
failing element. -/
lemma takeWhile_append_stop {α : Type} {p : α → Bool} :
    ∀ (xs : List α) (y : α) (ys : List α), (∀ x ∈ xs, p x = true) → p y = false →
      (xs ++ y :: ys).takeWhile p = xs := by
  intro xs y ys hxs hy
  induction xs with
  | nil => simp [List.takeWhile_cons, hy]
  | cons a xs ih =>
      have ha : p a = true := hxs a (by simp)
      simp only [List.cons_append, List.takeWhile_cons, ha, if_true]
      rw [ih (fun x hx => hxs x (by simp [hx]))]

/-- `Option.getD "" = ""` is Python's `not s` on an optional string. -/
lemma getD_empty_iff (o : Option String) : o.getD "" = "" ↔ (o = none ∨ o = some "") := by
  cases o <;> simp

/-- C7: for a site URL `https://host/...` whose hostname contains none of
':', '/', '?', '#', the credential environment-variable stem is the first
DNS label of the hostname upper-cased; and `get_credentials` raises its
ValueError exactly when `<STEM>_USERNAME` or `<STEM>_PASSWORD` is unset or
empty, in which case `main`'s per-pick processing stops before any browser
action. -/
theorem credentials_spec (host path : String)
    (hhost : ∀ c ∈ host.data, c ≠ ':' ∧ c ≠ '/' ∧ c ≠ '?' ∧ c ≠ '#')
    (env : String → Option String) (url : String) :
    url_to_env_pfx ("https://" ++ host ++ "/" ++ path) = spec_first_label_upper host ∧
    ((∃ e, get_credentials env url = Except.error e) ↔
      (env (url_to_env_pfx url ++ "_USERNAME") = none ∨
       env (url_to_env_pfx url ++ "_USERNAME") = some "" ∨
       env (url_to_env_pfx url ++ "_PASSWORD") = none ∨
       env (url_to_env_pfx url ++ "_PASSWORD") = some "")) ∧
    (∀ e, get_credentials env url = Except.error e →
      process_pick_events env url = [RunEvent.resolveCredentials]) := by
  refine ⟨?_, ?_, ?_⟩
  · have hdata : ("https://" ++ host ++ "/" ++ path).data =
        'h' :: 't' :: 't' :: 'p' :: 's' :: ':' :: '/' :: '/' ::
          (host.data ++ '/' :: path.data) := by
      simp only [String.data_append, List.append_assoc]
      rfl
    have hnet : netloc_chars ("https://" ++ host ++ "/" ++ path).data =
        (host.data ++ '/' :: path.data).takeWhile
          (fun c => c != '/' && c != '?' && c != '#') := by
      rw [hdata]
      rfl
    unfold url_to_env_pfx spec_first_label_upper
    rw [hnet, takeWhile_append_stop host.data '/' path.data ?hpre ?hstop]
    case hpre =>
      intro c hc
      obtain ⟨-, h2, h3, h4⟩ := hhost c hc
      simp [h2, h3, h4]
    case hstop => rfl
  · unfold get_credentials
    by_cases h : (env (url_to_env_pfx url ++ "_USERNAME")).getD "" = "" ∨
        (env (url_to_env_pfx url ++ "_PASSWORD")).getD "" = ""
    · rw [if_pos h]
      simp only [Except.error.injEq, exists_eq]
      rw [getD_empty_iff, getD_empty_iff] at h
      tauto
    · rw [if_neg h]
      simp only [reduceCtorEq, exists_false, false_iff]
      rw [getD_empty_iff, getD_empty_iff] at h
      tauto
  · intro e he
    unfold process_pick_events
    rw [he]

/-- Witness for C7 at host "tronpick.io" with an empty environment. -/
theorem credentials_spec_witness :
    url_to_env_pfx ("https://" ++ "tronpick.io" ++ "/" ++ "") =
      spec_first_label_upper "tronpick.io" ∧
    spec_first_label_upper "tronpick.io" = "TRONPICK" ∧
    process_pick_events (fun _ => none) "https://tronpick.io/" =
      [RunEvent.resolveCredentials] := by
  have h := credentials_spec "tronpick.io" "" (by decide) (fun _ => none)
    "https://tronpick.io/"
  exact ⟨h.1, by decide, h.2.2 _ rfl⟩

/-! ## Pick persistence (`scrapling_pick.py`: `Pick` 53-98,
`pick_to_dict_json_safe` 741-765, `json_to_pick` 768-786) -/

/-- Timestamps: a `datetime` value is modelled as a microsecond count.
`datetime.isoformat()` is modelled as an injective decimal rendering and
`datetime.fromisoformat` as its parser; Python's datetime guarantees
`fromisoformat(isoformat(d)) == d`, which this codec reproduces (the codec's
string shape stands in for the ISO-8601 text, whose exact format the
repository never inspects). -/
def dt_isoformat (d : Nat) : String :=
  if d = 0 then "0"
  else String.mk (((Nat.digits 10 d).map Nat.digitChar).reverse)

/-- The inverse rendering, standing in for `datetime.fromisoformat`. -/
def dt_fromisoformat (s : String) : Nat :=
  Nat.ofDigits 10 ((s.data.map (fun c => c.toNat - 48)).reverse)

/-- The timestamp codec round-trips. -/
lemma dt_fromisoformat_isoformat (d : Nat) : dt_fromisoformat (dt_isoformat d) = d := by
  by_cases h : d = 0
  · subst h
    rfl
  · have hlt : ∀ x ∈ Nat.digits 10 d, x < 10 :=
      fun x hx => Nat.digits_lt_base (by norm_num) hx
    unfold dt_isoformat dt_fromisoformat
    rw [if_neg h]
    show Nat.ofDigits 10
      (((((Nat.digits 10 d).map Nat.digitChar).reverse).map (fun c => c.toNat - 48)).reverse) = d
    rw [List.map_reverse, List.reverse_reverse, List.map_map]
    have hmap : ∀ (L : List Nat), (∀ x ∈ L, x < 10) →
        L.map ((fun c : Char => c.toNat - 48) ∘ Nat.digitChar) = L := by
      intro L
      induction L with
      | nil => intro _; rfl
      | cons a L ih =>
          intro hL
          have ha : a < 10 := hL a (by simp)
          simp only [List.map_cons, ih (fun x hx => hL x (by simp [hx]))]
          congr 1
          interval_cases a <;> rfl
    rw [hmap _ hlt, Nat.ofDigits_digits]

/-- The rendering of a timestamp is never the empty (falsy) string. -/
lemma dt_isoformat_ne_empty (d : Nat) : dt_isoformat d ≠ "" := by
  unfold dt_isoformat
  by_cases h : d = 0
  · simp [h]
  · rw [if_neg h]
    intro hcon
    have hdat : (((Nat.digits 10 d).map Nat.digitChar).reverse) = [] :=
      congrArg String.data hcon
    simp only [List.reverse_eq_nil_iff, List.map_eq_nil_iff] at hdat
    exact h (Nat.digits_eq_nil_iff_eq_zero.mp hdat)

/-- The JSON values `pick_to_dict_json_safe` writes: strings, floats, ints,
null and arrays. -/
inductive JValue where
  | jnull : JValue
  | jstr : String → JValue
  | jnum : ℚ → JValue
  | jint : Int → JValue
  | jarr : List JValue → JValue

/-- The `Pick` record (`scrapling_pick.py` 53-98): per-site url, currency,
balance/wagered/target, claim counters, the snapshot history of
(last_update, balance, wagered, target, remaining_claims, free_spins)
tuples, the last-update timestamp and the ephemeral cooldown timer. -/
structure Pick where
  url : String
  currency : String
  balance : ℚ
  wagered : ℚ
  target : ℚ
  remaining_claims : Int
  free_spins : Int
  history : List (Nat × ℚ × ℚ × ℚ × Int × Int)
  last_update : Option Nat
  cooldown_timer : Option String
deriving DecidableEq, Repr

/-- One history tuple as serialized inside `pick_to_dict_json_safe`:
`(dt.isoformat(), balance, wagered, target, remaining_claims, free_spins)`. -/
def hist_entry_to_json (e : Nat × ℚ × ℚ × ℚ × Int × Int) : JValue :=
  JValue.jarr [JValue.jstr (dt_isoformat e.1), JValue.jnum e.2.1, JValue.jnum e.2.2.1,
    JValue.jnum e.2.2.2.1, JValue.jint e.2.2.2.2.1, JValue.jint e.2.2.2.2.2]

/-- `pick_to_dict_json_safe` (`scrapling_pick.py` 741-765): the keys written,
in source order. `cooldown_timer` is deliberately not written (the commented
line ends "NO!"). -/
def pick_to_dict_json_safe (p : Pick) : List (String × JValue) :=
  [("url", JValue.jstr p.url),
   ("currency", JValue.jstr p.currency),
   ("balance", JValue.jnum p.balance),
   ("wagered", JValue.jnum p.wagered),
   ("history", JValue.jarr (p.history.map hist_entry_to_json)),
   ("last_update", match p.last_update with
     | some dt => JValue.jstr (dt_isoformat dt)
     | none => JValue.jnull),
   ("target", JValue.jnum p.target),
   ("remaining_claims", JValue.jint p.remaining_claims),
   ("free_spins", JValue.jint p.free_spins)]

/-- Decoding one history tuple in `json_to_pick`'s list comprehension. The
encoder always produces exactly this shape; any other shape would be a
Python TypeError, modelled `none`. -/
def json_hist_entry? (v : JValue) : Option (Nat × ℚ × ℚ × ℚ × Int × Int) :=
  match v with
  | JValue.jarr [JValue.jstr dt, JValue.jnum b, JValue.jnum w, JValue.jnum t,
      JValue.jint rc, JValue.jint fs] =>
      some (dt_fromisoformat dt, b, w, t, rc, fs)
  | _ => none

/-- Dictionary access `data["key"]`; `none` models the KeyError on a missing
key. -/
def jlookup (d : List (String × JValue)) (k : String) : Option JValue :=
  match d with
  | [] => none
  | (k2, v) :: rest => if k2 = k then some v else jlookup rest k

/-- The decoding comprehension over `data["history"]`
(`scrapling_pick.py` 778-781); an entry of the wrong shape is a Python
TypeError aborting the whole decode (`none`). -/
def decode_hist : List JValue → Option (List (Nat × ℚ × ℚ × ℚ × Int × Int))
  | [] => some []
  | v :: rest =>
      match json_hist_entry? v, decode_hist rest with
      | some e, some l => some (e :: l)
      | _, _ => none

/-- `json_to_pick` (`scrapling_pick.py` 768-786): rebuilds a Pick from the
dict. `data.get("remaining_claims", 0)` and `data.get("free_spins", 0)`
default to 0 on a missing key; `data["last_update"]` is `fromisoformat`'ed
only when truthy (both None and "" give None); cooldown_timer is never
restored, so it keeps the constructor's None. A value of an unexpected shape
(impossible in encoder output) decodes to `none`. -/
def json_to_pick (d : List (String × JValue)) : Option Pick :=
  match jlookup d "url", jlookup d "currency", jlookup d "balance", jlookup d "wagered",
      jlookup d "history", jlookup d "last_update", jlookup d "target" with
  | some (JValue.jstr url), some (JValue.jstr currency), some (JValue.jnum balance),
      some (JValue.jnum wagered), some (JValue.jarr hist), some lu,
      some (JValue.jnum target) =>
    match decode_hist hist,
        (match lu with
         | JValue.jnull => some none
         | JValue.jstr s => some (if s = "" then none else some (dt_fromisoformat s))
         | _ => none) with
    | some history, some last_update =>
        some { url := url, currency := currency, balance := balance, wagered := wagered,
               target := target,
               remaining_claims :=
                 (match jlookup d "remaining_claims" with
                  | some (JValue.jint n) => n
                  | _ => 0),
               free_spins :=
                 (match jlookup d "free_spins" with
                  | some (JValue.jint n) => n
                  | _ => 0),
               history := history, last_update := last_update, cooldown_timer := none }
    | _, _ => none
  | _, _, _, _, _, _, _ => none

/-- One history entry survives the round trip. -/
lemma json_hist_entry_roundtrip (e : Nat × ℚ × ℚ × ℚ × Int × Int) :
    json_hist_entry? (hist_entry_to_json e) = some e := by
  obtain ⟨dt, b, w, t, rc, fs⟩ := e
  simp [hist_entry_to_json, json_hist_entry?, dt_fromisoformat_isoformat]

/-- The whole history list survives the round trip. -/
lemma decode_hist_roundtrip (l : List (Nat × ℚ × ℚ × ℚ × Int × Int)) :
    decode_hist (l.map hist_entry_to_json) = some l := by
  induction l with
  | nil => rfl
  | cons e l ih =>
      simp [List.map_cons, decode_hist, json_hist_entry_roundtrip, ih]

/-- C8: Pick persistence round-trips except for the cooldown timer:
deserializing the serialized dict restores url, currency, balance, wagered,
target, history, last_update, remaining_claims and free_spins to equal
values, while cooldown_timer is never written (its key is absent from the
serialized dict) and the deserialized Pick's cooldown timer is always none. -/
theorem pick_persistence_roundtrip (p : Pick) :
    json_to_pick (pick_to_dict_json_safe p) = some { p with cooldown_timer := none } ∧
    "cooldown_timer" ∉ (pick_to_dict_json_safe p).map Prod.fst := by
  constructor
  · obtain ⟨url, currency, balance, wagered, target, rc, fs, history, lastu, cool⟩ := p
    cases lastu with
    | none =>
        simp [json_to_pick, pick_to_dict_json_safe, jlookup, decode_hist_roundtrip]
    | some dt =>
        simp [json_to_pick, pick_to_dict_json_safe, jlookup, decode_hist_roundtrip,
          dt_fromisoformat_isoformat, dt_isoformat_ne_empty dt]
  · simp [pick_to_dict_json_safe]

/-! ## Login flow and the mandatory pre-login hook (`casino.py`:
`make_handle_google_one_tap_popup` 163-212, `make_login_action_factory`
304-377) -/

/-- `handle_google_one_tap_popup` (`casino.py` 170-212): `body` is the
outcome of its `try` body (the wait, the popup-container check and the
close-selector loop; that loop swallows its per-selector failures itself).
Any exception reaching the `except` is logged as critical and re-raised
unchanged ("Do raise - this is not optional, login doesn't work otherwise"). -/
def handle_google_one_tap_popup (body : Except String Unit) : Except String Unit :=
  match body with
  | Except.ok _ => Except.ok ()
  | Except.error e => Except.error e

/-- The steps `login_action` can perform, in order of appearance. -/
inductive LoginEvent where
  | preLoginHook : LoginEvent
  | fillUsername : LoginEvent
  | fillPassword : LoginEvent
  | clickSubmit : LoginEvent
  | waitLoad : LoginEvent
  | postLoginHook : LoginEvent
  | totpFill : LoginEvent
  | totpSubmit : LoginEvent
deriving DecidableEq, Repr

/-- Outcomes of the page primitives `login_action` uses. -/
structure LoginPage where
  fill_username : Except String Unit
  fill_password : Except String Unit
  click_submit : Except String Unit
  totp_wait_visible : Except String Unit
  totp_fill : Except String Unit
  totp_click : Except String Unit

/-- `login_action` (`casino.py` 339-375): the pre-login callback (when
configured) runs first and is NOT wrapped in a try/except, so its exception
propagates and aborts the flow before anything else; then the credential
fills (un-guarded), the submit click (whose try/except logs and re-raises),
a best-effort load wait (swallows its errors), the optional post-login
callback, the TOTP block (its try/except also re-raises) and a final load
wait. Returns the ordered trace of steps performed and the outcome;
`pre`/`post` are the configured callbacks' outcomes (`none` = no callback),
`totp_configured` is whether a TOTP secret and both TOTP selectors exist. -/
def login_action (pre post : Option (Except String Unit)) (totp_configured : Bool)
    (page : LoginPage) : List LoginEvent × Except String Unit :=
  match pre with
  | some (Except.error e) => ([LoginEvent.preLoginHook], Except.error e)
  | _ =>
    let ev0 : List LoginEvent :=
      match pre with
      | some _ => [LoginEvent.preLoginHook]
      | none => []
    match page.fill_username with
    | Except.error e => (ev0 ++ [LoginEvent.fillUsername], Except.error e)
    | Except.ok _ =>
      match page.fill_password with
      | Except.error e =>
          (ev0 ++ [LoginEvent.fillUsername, LoginEvent.fillPassword], Except.error e)
      | Except.ok _ =>
        match page.click_submit with
        | Except.error e =>
            (ev0 ++ [LoginEvent.fillUsername, LoginEvent.fillPassword,
              LoginEvent.clickSubmit], Except.error e)
        | Except.ok _ =>
          let ev1 := ev0 ++ [LoginEvent.fillUsername, LoginEvent.fillPassword,
            LoginEvent.clickSubmit, LoginEvent.waitLoad]
          match post with
          | some (Except.error e) => (ev1 ++ [LoginEvent.postLoginHook], Except.error e)
          | _ =>
            let ev2 := ev1 ++
              (match post with
               | some _ => [LoginEvent.postLoginHook]
               | none => [])
            if totp_configured then
              match page.totp_wait_visible with
              | Except.error e => (ev2, Except.error e)
              | Except.ok _ =>
                match page.totp_fill with
                | Except.error e => (ev2 ++ [LoginEvent.totpFill], Except.error e)
                | Except.ok _ =>
                  match page.totp_click with
                  | Except.error e =>
                      (ev2 ++ [LoginEvent.totpFill, LoginEvent.totpSubmit], Except.error e)
                  | Except.ok _ =>
                      (ev2 ++ [LoginEvent.totpFill, LoginEvent.totpSubmit,
                        LoginEvent.waitLoad], Except.ok ())
            else (ev2 ++ [LoginEvent.waitLoad], Except.ok ())

/-- C9: the pre-login popup hook is mandatory: `handle_google_one_tap_popup`
re-raises its body's error unchanged, and when the configured pre-login hook
fails the whole login action aborts with exactly that error after only the
hook step - no credential fill, submit, load-wait or TOTP step runs. -/
theorem pre_login_hook_mandatory (e : String) (body : Except String Unit)
    (hb : body = Except.error e) (post : Option (Except String Unit))
    (totp : Bool) (page : LoginPage) :
    handle_google_one_tap_popup body = Except.error e ∧
    login_action (some (handle_google_one_tap_popup body)) post totp page =
      ([LoginEvent.preLoginHook], Except.error e) ∧
    (∀ ev ∈ (login_action (some (handle_google_one_tap_popup body)) post totp page).1,
      ev = LoginEvent.preLoginHook) := by
  subst hb
  refine ⟨rfl, rfl, ?_⟩
  intro ev hev
  have h2 : (login_action (some (handle_google_one_tap_popup (Except.error e)))
      post totp page).1 = [LoginEvent.preLoginHook] := rfl
  rw [h2] at hev
  simpa using hev

/-- A login page whose primitives all succeed, for the C9 witness. -/
def demo_login_page : LoginPage :=
  { fill_username := Except.ok (), fill_password := Except.ok (),
    click_submit := Except.ok (), totp_wait_visible := Except.ok (),
    totp_fill := Except.ok (), totp_click := Except.ok () }

/-- Witness for C9 at a concrete failing popup body. -/
theorem pre_login_hook_mandatory_witness :
    handle_google_one_tap_popup (Except.error "Timeout 1500ms exceeded") =
      Except.error "Timeout 1500ms exceeded" ∧
    login_action (some (handle_google_one_tap_popup
        (Except.error "Timeout 1500ms exceeded"))) none false demo_login_page =
      ([LoginEvent.preLoginHook], Except.error "Timeout 1500ms exceeded") :=
  ⟨(pre_login_hook_mandatory "Timeout 1500ms exceeded" _ rfl none false
      demo_login_page).1,
   (pre_login_hook_mandatory "Timeout 1500ms exceeded" _ rfl none false
      demo_login_page).2.1⟩

/-! ## Pick.update and get_history (`scrapling_pick.py` 100-156) -/

/-- The assignment part of `Pick.update` (`scrapling_pick.py` 137-148), after
arguments are resolved: when a previous update exists, the previous
(last_update, balance, wagered, target, remaining_claims, free_spins)
snapshot is appended to history; then every field is overwritten and
last_update becomes now. -/
def Pick.update_apply (p : Pick) (now : Nat) (b w t : ℚ) (rc fs : Int)
    (cd : Option String) : Pick :=
  { p with
    history :=
      match p.last_update with
      | some lu =>
          p.history ++ [(lu, p.balance, p.wagered, p.target, p.remaining_claims, p.free_spins)]
      | none => p.history,
    balance := b, wagered := w, target := t, remaining_claims := rc,
    free_spins := fs, last_update := some now, cooldown_timer := cd }

/-- `Pick.update` (`scrapling_pick.py` 100-148): with an `account_state` its
fields win; otherwise balance, wagered and target must all be given or a
ValueError is raised (before any assignment, so the Pick is unchanged);
missing remaining_claims/free_spins default to 0. `now` is `datetime.now()`. -/
def Pick.update (p : Pick) (now : Nat) (balance wagered target : Option ℚ)
    (remaining_claims free_spins : Option Int) (cooldown_timer : Option String)
    (account_state : Option AccountState) : Except String Pick :=
  match account_state with
  | some st =>
      Except.ok (Pick.update_apply p now st.balance st.wagered st.target
        st.remaining_claims st.free_spins st.time_remaining)
  | none =>
    match balance, wagered, target with
    | some b, some w, some t =>
        Except.ok (Pick.update_apply p now b w t (remaining_claims.getD 0)
          (free_spins.getD 0) cooldown_timer)
    | _, _, _ =>
        Except.error "Either account_state or all individual parameters must be provided"

/-- `Pick.get_history` (`scrapling_pick.py` 150-156): the stored history plus
the current fields as a final entry once a first update happened. -/
def Pick.get_history (p : Pick) : List (Nat × ℚ × ℚ × ℚ × Int × Int) :=
  match p.last_update with
  | some lu =>
      p.history ++ [(lu, p.balance, p.wagered, p.target, p.remaining_claims, p.free_spins)]
  | none => p.history

/-- Every successful `Pick.update` is an `update_apply` at some resolved
values. -/
lemma update_ok_form (p : Pick) (now : Nat) (b w t : Option ℚ) (rc fs : Option Int)
    (cd : Option String) (st : Option AccountState) (q : Pick)
    (hq : Pick.update p now b w t rc fs cd st = Except.ok q) :
    ∃ B W T RC FS CD, q = Pick.update_apply p now B W T RC FS CD := by
  cases st with
  | some stv =>
      exact ⟨_, _, _, _, _, _, (Except.ok.injEq _ _ ▸ hq :
        Pick.update_apply _ _ _ _ _ _ _ _ = q).symm⟩
  | none =>
      cases b with
      | none => exact absurd hq (by simp [Pick.update])
      | some bv =>
          cases w with
          | none => exact absurd hq (by simp [Pick.update])
          | some wv =>
              cases t with
              | none => exact absurd hq (by simp [Pick.update])
              | some tv =>
                  exact ⟨_, _, _, _, _, _, (Except.ok.injEq _ _ ▸ hq :
                    Pick.update_apply _ _ _ _ _ _ _ _ = q).symm⟩

/-- After `update_apply`, reading the timeline back appends exactly one entry
stamped `now`. -/
lemma update_apply_get_history (p : Pick) (now : Nat) (B W T : ℚ) (RC FS : Int)
    (CD : Option String) (lu : Nat) (hlu : p.last_update = some lu) :
    (Pick.update_apply p now B W T RC FS CD).get_history =
      p.get_history ++ [(now, B, W, T, RC, FS)] := by
  unfold Pick.update_apply Pick.get_history
  rw [hlu]

/-- C10: `Pick.update` preserves the history invariant: once last_update is
set, a successful update appends exactly one entry holding the previous
(last_update, balance, wagered, target, remaining_claims, free_spins)
snapshot and stamps last_update := now; the first successful update appends
nothing; a call with no account_state and any of balance/wagered/target
missing raises the ValueError (returning no new Pick, the raise preceding
every field assignment); and the get_history timeline stays chronological
whenever it was and time moved forward. -/
theorem pick_update_history_invariant (p : Pick) (now : Nat)
    (b w t : Option ℚ) (rc fs : Option Int) (cd : Option String)
    (st : Option AccountState) :
    (∀ lu, p.last_update = some lu →
      ∀ q, Pick.update p now b w t rc fs cd st = Except.ok q →
        q.history = p.history ++
          [(lu, p.balance, p.wagered, p.target, p.remaining_claims, p.free_spins)] ∧
        q.last_update = some now) ∧
    (p.last_update = none →
      ∀ q, Pick.update p now b w t rc fs cd st = Except.ok q →
        q.history = p.history) ∧
    (st = none → (b = none ∨ w = none ∨ t = none) →
      Pick.update p now b w t rc fs cd st =
        Except.error "Either account_state or all individual parameters must be provided") ∧
    (∀ lu q, p.last_update = some lu → lu ≤ now →
      Pick.update p now b w t rc fs cd st = Except.ok q →
      List.Chain' (· ≤ ·) ((p.get_history).map Prod.fst) →
      List.Chain' (· ≤ ·) ((q.get_history).map Prod.fst)) := by
  refine ⟨?_, ?_, ?_, ?_⟩
  · intro lu hlu q hq
    obtain ⟨B, W, T, RC, FS, CD, rfl⟩ := update_ok_form p now b w t rc fs cd st q hq
    unfold Pick.update_apply
    rw [hlu]
    exact ⟨rfl, rfl⟩
  · intro hlu q hq
    obtain ⟨B, W, T, RC, FS, CD, rfl⟩ := update_ok_form p now b w t rc fs cd st q hq
    unfold Pick.update_apply
    rw [hlu]
  · intro hst hmiss
    subst hst
    unfold Pick.update
    rcases hmiss with h | h | h
    · subst h; cases w <;> cases t <;> rfl
    · subst h; cases b <;> cases t <;> rfl
    · subst h; cases b <;> cases w <;> rfl
  · intro lu q hlu hle hq hchain
    obtain ⟨B, W, T, RC, FS, CD, rfl⟩ := update_ok_form p now b w t rc fs cd st q hq
    rw [update_apply_get_history p now B W T RC FS CD lu hlu, List.map_append,
      List.chain'_append]
    have hgl : ((p.get_history).map Prod.fst).getLast? = some lu := by
      unfold Pick.get_history
      rw [hlu, List.map_append]
      simp
    refine ⟨hchain, by simp, ?_⟩
    intro x hx y hy
    rw [hgl] at hx
    simp only [Option.mem_def, Option.some_inj] at hx
    simp only [List.map_cons, List.map_nil, List.head?_cons, Option.mem_def,
      Option.some_inj] at hy
    subst hx
    subst hy
    exact hle

/-- A demo Pick for the C10 witness: one earlier update at time 5. -/
def demo_pick : Pick :=
  { url := "https://tronpick.io/", currency := "TRX", balance := 1, wagered := 2,
    target := 3, remaining_claims := 4, free_spins := 5, history := [],
    last_update := some 5, cooldown_timer := none }

/-- Witness for C10: updating the demo Pick at time 7 appends its previous
snapshot and stamps the new time. -/
theorem pick_update_history_invariant_witness :
    (Pick.update_apply demo_pick 7 10 11 12 0 0 none).history =
      demo_pick.history ++ [(5, demo_pick.balance, demo_pick.wagered, demo_pick.target,
        demo_pick.remaining_claims, demo_pick.free_spins)] ∧
    (Pick.update_apply demo_pick 7 10 11 12 0 0 none).last_update = some 7 :=
  (pick_update_history_invariant demo_pick 7 (some 10) (some 11) (some 12)
      none none none none).1
    5 rfl (Pick.update_apply demo_pick 7 10 11 12 0 0 none) rfl

end Scrapling
